import Mathlib

/-!
Verification of the medical triage core of the RAG-medbot repository.

The development shallowly embeds the Python sources:
  * `chatbot/nlp_processor.py` — symptom extraction and emergency detection
    (`MedicalNLPProcessor.extract_symptoms`, `detect_emergency`);
  * `chatbot/rag_retriever.py`  — condition matching
    (`RAGRetriever.retrieve_relevant_first_aid`, `_get_diseases_with_text`,
    `_match_disease`);
  * `chatbot/views.py`          — the message pipeline (`process_message`),
    severity ranking (`SEVERITY_LEVELS`) and the response formatter
    (`format_medical_response`).

Database-backed reference data (the symptom lexicon, the emergency keyword
table and the disease corpus) is passed in explicitly; a fetch that raises is
modelled as `Except.error ()`.  Python's `str` operations used by the code are
modelled on `List Char`: `lower` maps `Char.toLower`, `strip` drops whitespace
at both ends, and the `in` operator is contiguous-sublist search.
-/

/-- Python `str.lower()` (per-character lowercasing). -/
def pyLower (s : String) : String :=
  String.mk (s.data.map Char.toLower)

/-- Python `str.strip()`: remove whitespace from both ends. -/
def pyStrip (s : String) : String :=
  String.mk (((s.data.dropWhile Char.isWhitespace).reverse.dropWhile
    Char.isWhitespace).reverse)

/-- Does `pat` occur at the head of `l`? (helper for `strContains`). -/
def matchesAt : List Char → List Char → Bool
  | [], _ => true
  | _ :: _, [] => false
  | c :: cs, d :: ds => c == d && matchesAt cs ds

/-- Does `pat` occur contiguously anywhere in `l`? (helper for `strContains`). -/
def containsAux (pat : List Char) : List Char → Bool
  | [] => pat.isEmpty
  | c :: t => matchesAt pat (c :: t) || containsAux pat t

/-- Python's `needle in hay` substring test on strings. -/
def strContains (hay needle : String) : Bool :=
  containsAux needle.data hay.data

/-- First-occurrence-preserving deduplication with an explicit `seen` set,
embedding the loop at `nlp_processor.py:153-159`
(`seen = set(); for symptom in extracted: if symptom not in seen: ...`). -/
def dedupAcc (seen : List String) : List String → List String
  | [] => []
  | x :: xs => if x ∈ seen then dedupAcc seen xs else x :: dedupAcc (x :: seen) xs

/-- Deduplicate keeping the first occurrence of each element. -/
def dedupFirst (l : List String) : List String :=
  dedupAcc [] l

/-- A row of the `Symptom` model (`models.py:26-33`): `name` plus a
comma-delimited `alternative_names` text (blank allowed). -/
structure Symptom where
  name : String
  alternative_names : String
deriving DecidableEq

/-- A row of the `EmergencyKeyword` model (`models.py:46-59`). -/
structure EmergencyKeyword where
  keyword : String
  severity : String
  response_message : String
deriving DecidableEq

/-- A row of the `FirstAidProcedure` model (`models.py:35-44`), restricted to
the fields fetched by the retriever (`steps`, `warning_notes`,
`when_to_seek_help`); `warning_notes` is a blank-allowed text field. -/
structure FirstAidProcedure where
  steps : String
  warning_notes : String
  when_to_seek_help : String
deriving DecidableEq

/-- A row of the `Disease` model (`models.py:9-24`) together with its
prefetched first-aid procedures in registration order
(`firstaidprocedure_set`).  `common_symptoms` may be `None`
(`rag_retriever.py:45` guards with `or ""`). -/
structure Disease where
  name : String
  common_symptoms : Option String
  first_aid_procedures : List FirstAidProcedure
deriving DecidableEq

/-- The fixed synonym table `self.symptom_variations`
(`nlp_processor.py:46-57`), in Python dict insertion order. -/
def symptom_variations : List (String × List String) :=
  [ ("fever", ["fever", "hot", "temperature", "sweating", "chills", "feverish"]),
    ("headache", ["headache", "head pain", "head hurting", "migraine"]),
    ("cough", ["cough", "coughing", "dry cough", "wet cough"]),
    ("fatigue", ["fatigue", "tired", "weakness", "exhausted", "lethargy"]),
    ("vomiting", ["vomit", "vomiting", "throwing up", "nausea", "sick stomach"]),
    ("diarrhea", ["diarrhea", "diarrhoea", "loose stools", "running stomach"]),
    ("chest_pain", ["chest pain", "chest discomfort", "heart pain"]),
    ("difficulty_breathing",
      ["difficulty breathing", "shortness of breath", "can\x27t breathe"]),
    ("joint_pain", ["joint pain", "joint ache", "arthritis", "pain in joints"]),
    ("stomach_ache",
      ["stomach ache", "stomach pain", "abdominal pain", "belly pain"]) ]

/-- Method 1 of `extract_symptoms` (`nlp_processor.py:123-138`): for each
lexicon row, emit its canonical name if the name (lowercased) occurs in the
lowercased input, else if any comma-split, stripped, lowercased alternative
name occurs (the Python loop `break`s at the first matching variant, so a
single emission results, as `List.filterMap` produces). -/
def lexiconPass (symptoms : List Symptom) (text_lower : String) : List String :=
  symptoms.filterMap fun s =>
    if strContains text_lower (pyLower s.name) then some s.name
    else if s.alternative_names ≠ "" then
      if (s.alternative_names.splitOn ",").any
          (fun alt => strContains text_lower (pyLower (pyStrip alt))) then
        some s.name
      else none
    else none

/-- Method 2 of `extract_symptoms` (`nlp_processor.py:145-151`): for each
synonym-table entry, emit the canonical tag on the first variant that occurs
in the lowercased input. -/
def synonymPass (text_lower : String) : List String :=
  symptom_variations.filterMap fun sv =>
    if sv.2.any (fun v => strContains text_lower v) then some sv.1 else none

/-- The lexicon tags contributed by Method 1: empty when the database fetch
raises (the `try/except` at `nlp_processor.py:118-142` swallows the error and
leaves `extracted` untouched). -/
def lexiconTags (lexicon : Except Unit (List Symptom)) (text_lower : String) :
    List String :=
  match lexicon with
  | .ok syms => lexiconPass syms text_lower
  | .error _ => []

/-- `MedicalNLPProcessor.extract_symptoms` (`nlp_processor.py:108-163`):
lowercase the input, run the lexicon pass then the synonym pass, and
deduplicate preserving first occurrence. -/
def extract_symptoms (lexicon : Except Unit (List Symptom)) (text : String) :
    List String :=
  let text_lower := pyLower text
  dedupFirst (lexiconTags lexicon text_lower ++ synonymPass text_lower)

/-- One detected emergency (`nlp_processor.py:180-184`). -/
structure EmergencyMatch where
  keyword : String
  severity : String
  message : String
deriving DecidableEq

/-- `MedicalNLPProcessor.detect_emergency` (`nlp_processor.py:165-192`):
every keyword whose lowercased text occurs in the lowercased input, in table
order; a raising keyword fetch is swallowed, yielding `[]`. -/
def detect_emergency (store : Except Unit (List EmergencyKeyword))
    (text : String) : List EmergencyMatch :=
  let text_lower := pyLower text
  match store with
  | .error _ => []
  | .ok ks => ks.filterMap fun k =>
      if strContains text_lower (pyLower k.keyword) then
        some ⟨k.keyword, k.severity, k.response_message⟩
      else none

/-- `SEVERITY_LEVELS.get(severity, 0)` (`views.py:35-39` with `dict.get`
default 0 at `views.py:376`). -/
def SEVERITY_LEVELS (s : String) : Nat :=
  if s = "CRITICAL" then 3
  else if s = "URGENT" then 2
  else if s = "CAUTION" then 1
  else 0

/-- The ordering used by `emergencies.sort(key=..., reverse=True)`
(`views.py:375-378`): `a` may precede `b` iff `a`'s severity rank is at least
`b`'s. -/
def sevGE (a b : EmergencyMatch) : Prop :=
  SEVERITY_LEVELS b.severity ≤ SEVERITY_LEVELS a.severity

instance : DecidableRel sevGE := fun a b =>
  inferInstanceAs (Decidable (SEVERITY_LEVELS b.severity ≤ SEVERITY_LEVELS a.severity))

instance : IsTotal EmergencyMatch sevGE :=
  ⟨fun a b => Nat.le_total (SEVERITY_LEVELS b.severity) (SEVERITY_LEVELS a.severity)⟩

instance : IsTrans EmergencyMatch sevGE :=
  ⟨fun _ _ _ hab hbc => Nat.le_trans hbc hab⟩

/-- `emergencies.sort(key=lambda x: SEVERITY_LEVELS.get(x['severity'], 0),
reverse=True)` (`views.py:375-378`).  Python's `list.sort` is a stable sort;
insertion sort into the already-sorted tail is stable with the same total
preorder, hence extensionally the same function. -/
def sortEmergencies (es : List EmergencyMatch) : List EmergencyMatch :=
  es.insertionSort sevGE

/-- `CONFIDENCE_LOW_THRESHOLD = 0.5` (`views.py:48`). -/
def CONFIDENCE_LOW_THRESHOLD : ℚ := 1 / 2

/-- The disclaimer appended by `format_medical_response` when confidence is
below the threshold (`views.py:172-173`). -/
def lowConfidenceNote : String :=
  "\n\n*Note: This is a preliminary suggestion with low confidence. Please consult a healthcare provider.*"

/-- `format_medical_response` (`views.py:148-175`), accumulating the reply
exactly as the Python `response += ...` statements do.  The retriever always
populates the `steps`, `warning_notes` and `when_to_seek_help` keys
(`rag_retriever.py:127-131`), so the `dict.get` defaults never fire and plain
field access is faithful; Python's truthiness test on `warning_notes` is
`≠ ""` (the model field is a blank-allowed, non-null text). -/
def format_medical_response (disease : String) (first_aid : FirstAidProcedure)
    (confidence : ℚ) : String :=
  let r := "**Based on your symptoms, you may have " ++ disease ++ "**\n\n"
  let r := r ++ "**First Aid Steps:**\n" ++ first_aid.steps ++ "\n\n"
  let r := if first_aid.warning_notes ≠ "" then
      r ++ "**⚠️ WARNING:** " ++ first_aid.warning_notes ++ "\n\n"
    else r
  let r := r ++ "**When to Seek Help:**\n" ++ first_aid.when_to_seek_help
  if confidence < CONFIDENCE_LOW_THRESHOLD then r ++ lowConfidenceNote else r

/-- One entry of `diseases_data` as built by `_get_diseases_with_text`
(`rag_retriever.py:42-54`): the display name, the precomputed lowercased
search text, and the first prefetched first-aid procedure if any. -/
structure DiseaseData where
  name : String
  search_text : String
  first_aid : Option FirstAidProcedure
deriving DecidableEq

/-- `_get_diseases_with_text` (`rag_retriever.py:24-57`, the computation the
cache stores): `search_text = f"{name.lower()} {(common_symptoms or '').lower()}"`
and `first_aid = prefetched[0] if prefetched else None`. -/
def get_diseases_with_text (diseases : List Disease) : List DiseaseData :=
  diseases.map fun d =>
    { name := d.name
      search_text := pyLower d.name ++ " " ++ pyLower (d.common_symptoms.getD "")
      first_aid := d.first_aid_procedures.head? }

/-- One result dict of the retriever (`rag_retriever.py:124-132`). -/
structure MatchResult where
  disease : String
  confidence : ℚ
  first_aid : FirstAidProcedure
deriving DecidableEq

/-- The ordering used by `results.sort(key=lambda x: x['confidence'],
reverse=True)` (`rag_retriever.py:137`). -/
def confGE (a b : MatchResult) : Prop :=
  b.confidence ≤ a.confidence

instance : DecidableRel confGE := fun a b =>
  inferInstanceAs (Decidable (b.confidence ≤ a.confidence))

instance : IsTotal MatchResult confGE :=
  ⟨fun a b => le_total b.confidence a.confidence⟩

instance : IsTrans MatchResult confGE :=
  ⟨fun _ _ _ hab hbc => le_trans hbc hab⟩

/-- The tag normalisation `list({symptom.lower().strip() for symptom in
extracted_symptoms if symptom})` (`rag_retriever.py:88`): falsy entries
(`None` and `""`) are dropped, survivors are lowercased then stripped, and
the set is materialised; the model lists the set's elements in first-seen
order (downstream use is order-insensitive, proved separately). -/
def normTag (t : Option String) : Option String :=
  match t with
  | none => none
  | some s => if s = "" then none else some (pyStrip (pyLower s))

/-- Materialise the normalised tag set (see `normTag`). -/
def normalizeTags (tags : List (Option String)) : List String :=
  dedupFirst (tags.filterMap normTag)

/-- The candidate list built by the `for disease in diseases_data` loop
(`rag_retriever.py:108-134`): `_match_disease` counts the normalised tags
occurring in the search text; zero-match diseases and diseases without a
first-aid procedure contribute nothing, others yield
`confidence = match_count / len(extracted_symptoms)`. -/
def candidateResults (diseases_data : List DiseaseData) (norm : List String) :
    List MatchResult :=
  diseases_data.filterMap fun d =>
    if 0 < (norm.filter (fun s => strContains d.search_text s)).length then
      match d.first_aid with
      | some fa =>
          some ⟨d.name,
            ((norm.filter (fun s => strContains d.search_text s)).length : ℚ) /
              (norm.length : ℚ), fa⟩
      | none => none
    else none

/-- Sort descending by confidence (stably) and return the top 3
(`rag_retriever.py:136-147`). -/
def rankTop3 (diseases_data : List DiseaseData) (norm : List String) :
    List MatchResult :=
  ((candidateResults diseases_data norm).insertionSort confGE).take 3

/-- `RAGRetriever.retrieve_relevant_first_aid` (`rag_retriever.py:72-154`),
cache-cold: empty input returns `[]` before any store access
(`rag_retriever.py:82-90`), and any exception while fetching or matching the
disease corpus is caught and yields `[]` (`rag_retriever.py:149-154`). -/
def retrieve_relevant_first_aid (store : Except Unit (List Disease))
    (tags : List (Option String)) : List MatchResult :=
  if tags.isEmpty then []
  else
    let norm := normalizeTags tags
    if norm.isEmpty then []
    else
      match store with
      | .error _ => []
      | .ok diseases => rankTop3 (get_diseases_with_text diseases) norm

/-- The observable invocations of the triage components inside
`process_message`, in execution order. -/
inductive Step where
  | extractSymptoms
  | detectEmergency
  | matchConditions
deriving DecidableEq

/-- The JSON reply of `process_message`, restricted to the triage content:
an emergency reply (`views.py:397-404`) or a normal reply
(`views.py:492-497`). -/
inductive BotResponse where
  | emergency (severity message : String) (emergencies : List EmergencyMatch)
  | normal (message : String) (symptoms : List String)
deriving DecidableEq

/-- The reference data consumed by one `process_message` call. -/
structure PipelineEnv where
  symptomDb : Except Unit (List Symptom)
  emergencyDb : Except Unit (List EmergencyKeyword)
  diseaseDb : Except Unit (List Disease)

/-- Fallback reply when no symptom was extracted (`views.py:471-475`). -/
def noSymptomMessage : String :=
  "I couldn\x27t identify any specific symptoms. Please describe how you\x27re feeling. For example: \x27I have fever, headache, and body aches\x27"

/-- Fallback reply when symptoms matched no condition (`views.py:464-468`). -/
def noMatchMessage (symptoms : List String) : String :=
  "I found these symptoms: " ++ String.intercalate ", " symptoms ++
    ". However, I couldn\x27t match them to a specific condition in my database. Please provide more details or consult a healthcare provider for a proper diagnosis."

/-- Placeholder for the (unreachable) head of an empty emergency list,
mirroring that Python's `emergencies[0]` cannot fail on the taken branch. -/
def defaultEmergency : EmergencyMatch :=
  ⟨"", "", ""⟩

/-- The triage portion of `process_message` (`views.py:350-497`), with a
trace of the component invocations. Step 1 (`views.py:350-360`) extracts
symptoms, Step 2 (`views.py:362-369`) detects emergencies; a non-empty
detection list is sorted by severity rank descending and answered
immediately (`views.py:371-404`), otherwise RAG retrieval runs only when
symptoms were extracted (`views.py:406-436`) and the reply is formatted from
the best match or a fallback (`views.py:451-497`).  The `preprocess` token
list (`views.py:353`) is unused downstream and omitted; persistence
(sessions, `SymptomLog`, `EmergencyLog`) is external to the triage core. -/
def process_message (env : PipelineEnv) (msg : String) :
    BotResponse × List Step :=
  let symptoms := extract_symptoms env.symptomDb msg
  let emergencies := detect_emergency env.emergencyDb msg
  if emergencies.isEmpty then
    if symptoms.isEmpty then
      (.normal noSymptomMessage symptoms, [.extractSymptoms, .detectEmergency])
    else
      let first_aid_results :=
        retrieve_relevant_first_aid env.diseaseDb (symptoms.map some)
      match first_aid_results with
      | best :: _ =>
          (.normal (format_medical_response best.disease best.first_aid
              best.confidence) symptoms,
            [.extractSymptoms, .detectEmergency, .matchConditions])
      | [] =>
          (.normal (noMatchMessage symptoms) symptoms,
            [.extractSymptoms, .detectEmergency, .matchConditions])
  else
    let sorted := sortEmergencies emergencies
    let top := sorted.headD defaultEmergency
    (.emergency top.severity top.message sorted,
      [.extractSymptoms, .detectEmergency])

/-- Sort a list of strings ascending (Python `sorted`), used for the result
cache key (`rag_retriever.py:93`). -/
def sortStrings (l : List String) : List String :=
  l.insertionSort (fun a b => a ≤ b)

/-- The Django cache entries touched by the retriever: the disease corpus
entry `rag_diseases_text` (`rag_retriever.py:30-33,56`) and the per-query
result entries keyed by the sorted normalised tag set
(`rag_retriever.py:93,146`). -/
structure RagCache where
  diseases : Option (List DiseaseData)
  results : List (List String × List MatchResult)

/-- The empty cache. -/
def emptyRagCache : RagCache :=
  ⟨none, []⟩

/-- `retrieve_relevant_first_aid` with the caching layer made explicit,
returning the reply together with the updated cache state: a result-cache
hit returns the stored list unchanged (`rag_retriever.py:94-98`); otherwise
the corpus is taken from the disease cache or fetched (caching it,
`rag_retriever.py:100-104`), the top-3 list is computed and stored under the
query key (`rag_retriever.py:106-147`), and a raising fetch caches nothing
and yields `[]` (`rag_retriever.py:149-154`). -/
def retrieveCached (store : Except Unit (List Disease)) (c : RagCache)
    (tags : List (Option String)) : List MatchResult × RagCache :=
  if tags.isEmpty then ([], c)
  else
    let norm := normalizeTags tags
    if norm.isEmpty then ([], c)
    else
      let key := sortStrings norm
      match c.results.find? (fun kv => kv.1 == key) with
      | some kv => (kv.2, c)
      | none =>
          let fetched : Except Unit (List DiseaseData) :=
            match c.diseases with
            | some ds => .ok ds
            | none => store.map get_diseases_with_text
          match fetched with
          | .error _ => ([], c)
          | .ok ds =>
              let top := rankTop3 ds norm
              (top, ⟨some ds, (key, top) :: c.results⟩)

/-- `extract_symptoms` with the `_get_all_symptoms` cache made explicit
(`nlp_processor.py:59-73`): a cache hit skips the fetch; a miss fetches and
caches the lexicon, and a raising fetch caches nothing (the surrounding
`try/except` then skips the lexicon pass). -/
def extractCached (db : Except Unit (List Symptom))
    (c : Option (List Symptom)) (text : String) :
    List String × Option (List Symptom) :=
  match c with
  | some syms => (extract_symptoms (.ok syms) text, some syms)
  | none =>
      match db with
      | .ok syms => (extract_symptoms (.ok syms) text, some syms)
      | .error e => (extract_symptoms (.error e) text, none)

/-- A concrete pipeline environment used to evaluate the embedding: one
emergency keyword, one lexicon row, an empty disease corpus. -/
def c1Env : PipelineEnv where
  symptomDb := .ok [⟨"difficulty breathing", "short of breath"⟩]
  emergencyDb := .ok [⟨"not breathing", "CRITICAL",
    "Call emergency services immediately"⟩]
  diseaseDb := .ok []

/-- A concrete one-condition corpus used to evaluate the matcher. -/
def exDiseases : List Disease :=
  [⟨"Malaria", some "fever, headache, chills",
    [⟨"Rest and take fluids", "", "See a doctor within 24 hours"⟩]⟩]

/-- Concrete extracted tags used to evaluate the matcher. -/
def exTags : List (Option String) :=
  [some "fever", some "headache"]

/-- The matcher result produced by `exDiseases`/`exTags`. -/
def exResult : MatchResult :=
  ⟨"Malaria", 1, ⟨"Rest and take fluids", "", "See a doctor within 24 hours"⟩⟩

/-- Concrete emergency matches with both a CAUTION and a CRITICAL entry. -/
def exEmergencies : List EmergencyMatch :=
  [⟨"dizzy", "CAUTION", "Monitor carefully"⟩,
   ⟨"not breathing", "CRITICAL", "Call emergency services immediately"⟩]

/-- C6: `format_medical_response` appends the low-confidence disclaimer iff
`confidence < 0.5`, includes the warning-notes section iff the warning notes
are non-empty, and always contains the condition name, the first-aid steps
and the when-to-seek-help text. -/
theorem c6_formatter_sections (d : String) (fa : FirstAidProcedure) (c : ℚ) :
    format_medical_response d fa c =
      "**Based on your symptoms, you may have " ++ d ++ "**\n\n" ++
        "**First Aid Steps:**\n" ++ fa.steps ++ "\n\n" ++
        (if fa.warning_notes ≠ "" then
          "**⚠️ WARNING:** " ++ fa.warning_notes ++ "\n\n"
        else "") ++
        "**When to Seek Help:**\n" ++ fa.when_to_seek_help ++
        (if c < CONFIDENCE_LOW_THRESHOLD then lowConfidenceNote else "") ∧
    (∃ l r, format_medical_response d fa c = l ++ d ++ r) ∧
    (∃ l r, format_medical_response d fa c = l ++ fa.steps ++ r) ∧
    (∃ l r, format_medical_response d fa c = l ++ fa.when_to_seek_help ++ r) := by
  have main : format_medical_response d fa c =
      "**Based on your symptoms, you may have " ++ d ++ "**\n\n" ++
        "**First Aid Steps:**\n" ++ fa.steps ++ "\n\n" ++
        (if fa.warning_notes ≠ "" then
          "**⚠️ WARNING:** " ++ fa.warning_notes ++ "\n\n"
        else "") ++
        "**When to Seek Help:**\n" ++ fa.when_to_seek_help ++
        (if c < CONFIDENCE_LOW_THRESHOLD then lowConfidenceNote else "") := by
    unfold format_medical_response
    split_ifs <;> simp only [String.append_assoc, String.append_empty]
  refine ⟨main, ⟨"**Based on your symptoms, you may have ",
      "**\n\n" ++ "**First Aid Steps:**\n" ++ fa.steps ++ "\n\n" ++
        (if fa.warning_notes ≠ "" then
          "**⚠️ WARNING:** " ++ fa.warning_notes ++ "\n\n"
        else "") ++
        "**When to Seek Help:**\n" ++ fa.when_to_seek_help ++
        (if c < CONFIDENCE_LOW_THRESHOLD then lowConfidenceNote else ""), ?_⟩,
    ⟨"**Based on your symptoms, you may have " ++ d ++ "**\n\n" ++
        "**First Aid Steps:**\n",
      "\n\n" ++
        (if fa.warning_notes ≠ "" then
          "**⚠️ WARNING:** " ++ fa.warning_notes ++ "\n\n"
        else "") ++
        "**When to Seek Help:**\n" ++ fa.when_to_seek_help ++
        (if c < CONFIDENCE_LOW_THRESHOLD then lowConfidenceNote else ""), ?_⟩,
    ⟨"**Based on your symptoms, you may have " ++ d ++ "**\n\n" ++
        "**First Aid Steps:**\n" ++ fa.steps ++ "\n\n" ++
        (if fa.warning_notes ≠ "" then
          "**⚠️ WARNING:** " ++ fa.warning_notes ++ "\n\n"
        else "") ++
        "**When to Seek Help:**\n",
      (if c < CONFIDENCE_LOW_THRESHOLD then lowConfidenceNote else ""), ?_⟩⟩ <;>
    rw [main] <;> simp only [String.append_assoc, String.append_empty]

/-- C7: when the symptom-lexicon fetch raises, `extract_symptoms` still
returns (it never propagates the error) and its output is exactly the
deduplicated synonym-table pass — the same as running with an empty
lexicon. -/
theorem c7_lexicon_unavailable (text : String) :
    extract_symptoms (.error ()) text = dedupFirst (synonymPass (pyLower text)) ∧
    extract_symptoms (.error ()) text = extract_symptoms (.ok []) text := by
  exact ⟨rfl, rfl⟩

/-- C8: the condition matcher returns `[]` for an empty tag list without
consulting the condition store (the result is the same for every store,
including a raising one), and returns `[]` whenever the store fetch raises;
being a total function, it never propagates an exception. -/
theorem c8_matcher_failure :
    (∀ store : Except Unit (List Disease),
        retrieve_relevant_first_aid store [] = []) ∧
    (∀ tags, retrieve_relevant_first_aid (.error ()) tags = []) := by
  constructor
  · intro _
    rfl
  · intro tags
    simp [retrieve_relevant_first_aid]

/-- Membership in the dedup loop output: present in the input and not yet
seen. -/
theorem mem_dedupAcc {a : String} :
    ∀ {seen l : List String}, a ∈ dedupAcc seen l ↔ a ∈ l ∧ a ∉ seen := by
  intro seen l
  induction l generalizing seen with
  | nil => simp [dedupAcc]
  | cons x xs ih =>
    by_cases hx : x ∈ seen
    · rw [dedupAcc, if_pos hx, ih]
      constructor
      · rintro ⟨h1, h2⟩
        exact ⟨List.mem_cons_of_mem _ h1, h2⟩
      · rintro ⟨h1, h2⟩
        rcases List.mem_cons.mp h1 with rfl | h1
        · exact absurd hx h2
        · exact ⟨h1, h2⟩
    · rw [dedupAcc, if_neg hx]
      constructor
      · intro hmem
        rcases List.mem_cons.mp hmem with rfl | hmem
        · exact ⟨List.mem_cons_self _ _, hx⟩
        · obtain ⟨h1, h2⟩ := ih.mp hmem
          exact ⟨List.mem_cons_of_mem _ h1,
            fun hs => h2 (List.mem_cons_of_mem _ hs)⟩
      · rintro ⟨h1, h2⟩
        rcases List.mem_cons.mp h1 with rfl | h1
        · exact List.mem_cons_self _ _
        · by_cases hax : a = x
          · exact hax ▸ List.mem_cons_self _ _
          · exact List.mem_cons_of_mem _ (ih.mpr ⟨h1, by simp [hax, h2]⟩)

/-- The dedup loop output has no duplicates. -/
theorem nodup_dedupAcc : ∀ (seen l : List String), (dedupAcc seen l).Nodup := by
  intro seen l
  induction l generalizing seen with
  | nil => simp [dedupAcc]
  | cons x xs ih =>
    by_cases hx : x ∈ seen
    · rw [dedupAcc, if_pos hx]
      exact ih seen
    · rw [dedupAcc, if_neg hx]
      refine List.nodup_cons.mpr ⟨?_, ih (x :: seen)⟩
      intro hmem
      exact (mem_dedupAcc.mp hmem).2 (List.mem_cons_self _ _)

/-- The dedup loop output lists elements in order of their first occurrence
in the input. -/
theorem pairwise_idxOf_dedupAcc :
    ∀ (l seen : List String),
      List.Pairwise (fun a b => l.indexOf a < l.indexOf b) (dedupAcc seen l) := by
  intro l
  induction l with
  | nil => intro seen; simp [dedupAcc]
  | cons x xs ih =>
    intro seen
    by_cases hx : x ∈ seen
    · rw [dedupAcc, if_pos hx]
      refine List.Pairwise.imp_of_mem ?_ (ih seen)
      intro a b ha hb hab
      have hax : x ≠ a := fun h => (mem_dedupAcc.mp ha).2 (h ▸ hx)
      have hbx : x ≠ b := fun h => (mem_dedupAcc.mp hb).2 (h ▸ hx)
      rw [List.indexOf_cons_ne _ hax, List.indexOf_cons_ne _ hbx]
      omega
    · rw [dedupAcc, if_neg hx]
      constructor
      · intro b hb
        have hbx : x ≠ b := fun h =>
          (mem_dedupAcc.mp hb).2 (h ▸ List.mem_cons_self _ _)
        rw [List.indexOf_cons_self, List.indexOf_cons_ne _ hbx]
        exact Nat.succ_pos _
      · refine List.Pairwise.imp_of_mem ?_ (ih (x :: seen))
        intro a b ha hb hab
        have hax : x ≠ a := fun h =>
          (mem_dedupAcc.mp ha).2 (h ▸ List.mem_cons_self _ _)
        have hbx : x ≠ b := fun h =>
          (mem_dedupAcc.mp hb).2 (h ▸ List.mem_cons_self _ _)
        rw [List.indexOf_cons_ne _ hax, List.indexOf_cons_ne _ hbx]
        omega

/-- Splitting the dedup loop across an append: the first list is processed
first, then the second contributes only entries unseen so far. -/
theorem dedupAcc_append :
    ∀ (seen xs ys : List String),
      ∃ B, dedupAcc seen (xs ++ ys) = dedupAcc seen xs ++ B ∧
        ∀ u ∈ B, u ∈ ys ∧ u ∉ xs ∧ u ∉ seen := by
  intro seen xs
  induction xs generalizing seen with
  | nil =>
    intro ys
    refine ⟨dedupAcc seen ys, by simp [dedupAcc], ?_⟩
    intro u hu
    obtain ⟨h1, h2⟩ := mem_dedupAcc.mp hu
    exact ⟨h1, by simp, h2⟩
  | cons x xs ih =>
    intro ys
    by_cases hx : x ∈ seen
    · obtain ⟨B, hB, hmem⟩ := ih seen ys
      refine ⟨B, ?_, ?_⟩
      · rw [List.cons_append, dedupAcc, if_pos hx, dedupAcc, if_pos hx]
        exact hB
      · intro u hu
        obtain ⟨h1, h2, h3⟩ := hmem u hu
        refine ⟨h1, ?_, h3⟩
        intro hmem'
        rcases List.mem_cons.mp hmem' with rfl | h
        · exact h3 hx
        · exact h2 h
    · obtain ⟨B, hB, hmem⟩ := ih (x :: seen) ys
      refine ⟨B, ?_, ?_⟩
      · rw [List.cons_append, dedupAcc, if_neg hx, dedupAcc, if_neg hx, hB,
          List.cons_append]
      · intro u hu
        obtain ⟨h1, h2, h3⟩ := hmem u hu
        have hux : u ≠ x := fun h => h3 (h ▸ List.mem_cons_self _ _)
        refine ⟨h1, ?_, fun h => h3 (List.mem_cons_of_mem _ h)⟩
        intro hmem'
        rcases List.mem_cons.mp hmem' with rfl | h
        · exact hux rfl
        · exact h2 h

/-- C3: the extractor output has no duplicate canonical tags, lists tags in
order of first occurrence across the concatenated lexicon and synonym
passes (strictly increasing first-occurrence index), contains exactly the
tags emitted by the two passes, and decomposes as the deduplicated lexicon
pass followed by tags contributed only by the synonym pass. -/
theorem c3_extractor_order (lexicon : Except Unit (List Symptom))
    (text : String) :
    (extract_symptoms lexicon text).Nodup ∧
    List.Pairwise (fun a b =>
        (lexiconTags lexicon (pyLower text) ++
          synonymPass (pyLower text)).indexOf a <
        (lexiconTags lexicon (pyLower text) ++
          synonymPass (pyLower text)).indexOf b)
      (extract_symptoms lexicon text) ∧
    (∀ t, t ∈ extract_symptoms lexicon text ↔
      t ∈ lexiconTags lexicon (pyLower text) ++ synonymPass (pyLower text)) ∧
    ∃ B, extract_symptoms lexicon text =
        dedupFirst (lexiconTags lexicon (pyLower text)) ++ B ∧
      ∀ u ∈ B, u ∈ synonymPass (pyLower text) ∧
        u ∉ lexiconTags lexicon (pyLower text) := by
  have he : extract_symptoms lexicon text =
      dedupFirst (lexiconTags lexicon (pyLower text) ++
        synonymPass (pyLower text)) := rfl
  refine ⟨?_, ?_, ?_, ?_⟩
  · rw [he]
    exact nodup_dedupAcc _ _
  · rw [he]
    exact pairwise_idxOf_dedupAcc _ _
  · intro t
    rw [he]
    unfold dedupFirst
    rw [mem_dedupAcc]
    simp
  · obtain ⟨B, hB, hmem⟩ :=
      dedupAcc_append [] (lexiconTags lexicon (pyLower text))
        (synonymPass (pyLower text))
    exact ⟨B, by rw [he]; exact hB,
      fun u hu => ⟨(hmem u hu).1, (hmem u hu).2.1⟩⟩

/-- Inserting an element that satisfies `p`, when it `r`-precedes every
`p`-element, puts it at the front of the `p`-filtered view. -/
theorem filter_orderedInsert_pos {α : Type} (r : α → α → Prop) [DecidableRel r]
    (p : α → Bool) (x : α) (hx : p x = true)
    (h : ∀ b, p b = true → r x b) (l : List α) :
    (l.orderedInsert r x).filter p = x :: l.filter p := by
  induction l with
  | nil => simp [List.orderedInsert, hx]
  | cons b bs ih =>
    by_cases hr : r x b
    · simp [List.orderedInsert, hr, List.filter_cons, hx]
    · have hpb : p b = false := by
        cases hpb : p b
        · rfl
        · exact absurd (h b hpb) hr
      simp [List.orderedInsert, hr, List.filter_cons, hpb, ih]

/-- Inserting an element that fails `p` leaves the `p`-filtered view
unchanged. -/
theorem filter_orderedInsert_neg {α : Type} (r : α → α → Prop) [DecidableRel r]
    (p : α → Bool) (x : α) (hx : p x = false) (l : List α) :
    (l.orderedInsert r x).filter p = l.filter p := by
  induction l with
  | nil => simp [List.orderedInsert, hx]
  | cons b bs ih =>
    by_cases hr : r x b
    · simp [List.orderedInsert, hr, List.filter_cons, hx]
    · cases hpb : p b <;>
      simp [List.orderedInsert, hr, List.filter_cons, hpb, ih]

/-- Stability of insertion sort: elements agreeing on the sort key (any
class on which `r` always holds) keep their original relative order. -/
theorem filter_insertionSort {α : Type} (r : α → α → Prop) [DecidableRel r]
    (p : α → Bool) (hp : ∀ a b, p a = true → p b = true → r a b)
    (l : List α) :
    (l.insertionSort r).filter p = l.filter p := by
  induction l with
  | nil => rfl
  | cons x xs ih =>
    cases hx : p x with
    | true =>
      rw [List.insertionSort,
        filter_orderedInsert_pos r p x hx (fun b hb => hp x b hx hb), ih]
      simp [List.filter_cons, hx]
    | false =>
      rw [List.insertionSort, filter_orderedInsert_neg r p x hx, ih]
      simp [List.filter_cons, hx]

/-- C5: with both a CRITICAL and a CAUTION match present, the representative
emergency (head of the severity-sorted list, the one whose severity and
message the response carries) is CRITICAL, and matches of equal severity
rank keep their detection order (the sort is stable). -/
theorem c5_severity_ordering (es : List EmergencyMatch)
    (hcrit : ∃ e ∈ es, e.severity = "CRITICAL")
    (hcaut : ∃ e ∈ es, e.severity = "CAUTION") :
    ((sortEmergencies es).headD defaultEmergency).severity = "CRITICAL" ∧
    ∀ v : Nat,
      (sortEmergencies es).filter
          (fun e => decide (SEVERITY_LEVELS e.severity = v)) =
        es.filter (fun e => decide (SEVERITY_LEVELS e.severity = v)) := by
  constructor
  · obtain ⟨e, he, hsev⟩ := hcrit
    have hmem : e ∈ sortEmergencies es := by
      rw [sortEmergencies]
      exact (List.mem_insertionSort sevGE).mpr he
    have hsorted : (sortEmergencies es).Pairwise sevGE :=
      List.sorted_insertionSort sevGE es
    cases hs : sortEmergencies es with
    | nil =>
      rw [hs] at hmem
      cases hmem
    | cons h t =>
      rw [hs] at hmem hsorted
      have hrank_le : SEVERITY_LEVELS e.severity ≤ SEVERITY_LEVELS h.severity := by
        rcases List.mem_cons.mp hmem with rfl | hm
        · exact le_refl _
        · exact List.rel_of_pairwise_cons hsorted hm
      have h3 : (3 : Nat) ≤ SEVERITY_LEVELS h.severity := by
        have : SEVERITY_LEVELS e.severity = 3 := by
          rw [hsev]
          rfl
        omega
      have : h.severity = "CRITICAL" := by
        by_contra hne
        have : SEVERITY_LEVELS h.severity ≤ 2 := by
          unfold SEVERITY_LEVELS
          split_ifs <;> omega
        omega
      simpa using this
  · intro v
    rw [sortEmergencies]
    refine filter_insertionSort sevGE _ ?_ es
    intro a b ha hb
    have ha' : SEVERITY_LEVELS a.severity = v := of_decide_eq_true ha
    have hb' : SEVERITY_LEVELS b.severity = v := of_decide_eq_true hb
    unfold sevGE
    omega

/-- Witness for C5 at a concrete detection list containing a CAUTION match
followed by a CRITICAL match. -/
theorem c5_severity_ordering_witness :
    ((sortEmergencies exEmergencies).headD defaultEmergency).severity =
      "CRITICAL" ∧
    ∀ v : Nat,
      (sortEmergencies exEmergencies).filter
          (fun e => decide (SEVERITY_LEVELS e.severity = v)) =
        exEmergencies.filter
          (fun e => decide (SEVERITY_LEVELS e.severity = v)) :=
  c5_severity_ordering exEmergencies (by decide) (by decide)

/-- C1 (counterexample to the claim as stated): on the spec's own scenario
input, the emergency detector returns a non-empty match set, yet symptom
extraction has been invoked on the message — and it ran before the
emergency check, not after it. -/
theorem c1_counterexample :
    detect_emergency c1Env.emergencyDb "person is not breathing" ≠ [] ∧
    (process_message c1Env "person is not breathing").2 =
      [Step.extractSymptoms, Step.detectEmergency] ∧
    Step.extractSymptoms ∈ (process_message c1Env "person is not breathing").2 := by
  decide

/-- C1 (amended): symptom extraction always runs first; the emergency check
runs second, before any condition matching, and whenever it returns a
non-empty match set the pipeline stops there — condition matching is never
invoked and the reply is exclusively an emergency response. -/
theorem c1_emergency_bypass (env : PipelineEnv) (msg : String)
    (h : detect_emergency env.emergencyDb msg ≠ []) :
    (process_message env msg).2 = [Step.extractSymptoms, Step.detectEmergency] ∧
    Step.matchConditions ∉ (process_message env msg).2 ∧
    ∃ sev m es, (process_message env msg).1 = BotResponse.emergency sev m es := by
  have hne : ¬((detect_emergency env.emergencyDb msg).isEmpty = true) := by
    simpa [List.isEmpty_iff] using h
  simp only [process_message]
  rw [if_neg hne]
  refine ⟨rfl, ?_, ⟨_, _, _, rfl⟩⟩
  show Step.matchConditions ∉ [Step.extractSymptoms, Step.detectEmergency]
  decide

/-- Witness for the amended C1 on the spec's scenario input. -/
theorem c1_emergency_bypass_witness :
    (process_message c1Env "person is not breathing").2 =
      [Step.extractSymptoms, Step.detectEmergency] ∧
    Step.matchConditions ∉ (process_message c1Env "person is not breathing").2 ∧
    ∃ sev m es, (process_message c1Env "person is not breathing").1 =
      BotResponse.emergency sev m es :=
  c1_emergency_bypass c1Env "person is not breathing" (by decide)

/-- On a non-empty tag list with a non-empty normalised set, the matcher
computes the ranked top-3 list from the corpus. -/
theorem retrieve_ok_eq (diseases : List Disease) (tags : List (Option String))
    (h1 : tags.isEmpty = false) (h2 : (normalizeTags tags).isEmpty = false) :
    retrieve_relevant_first_aid (.ok diseases) tags =
      rankTop3 (get_diseases_with_text diseases) (normalizeTags tags) := by
  simp [retrieve_relevant_first_aid, h1, h2]

/-- Membership in the candidate list: produced by some corpus entry with a
positive match count and an attached procedure. -/
theorem mem_candidateResults {dd : List DiseaseData} {norm : List String}
    {r : MatchResult} (hr : r ∈ candidateResults dd norm) :
    ∃ d ∈ dd, ∃ fa, d.first_aid = some fa ∧
      0 < (norm.filter (fun s => strContains d.search_text s)).length ∧
      r = ⟨d.name,
        ((norm.filter (fun s => strContains d.search_text s)).length : ℚ) /
          (norm.length : ℚ), fa⟩ := by
  rw [candidateResults] at hr
  obtain ⟨d, hd, hfd⟩ := List.mem_filterMap.mp hr
  by_cases hmc : 0 < (norm.filter (fun s => strContains d.search_text s)).length
  · rw [if_pos hmc] at hfd
    cases hfa : d.first_aid with
    | none =>
      rw [hfa] at hfd
      cases hfd
    | some fa =>
      rw [hfa] at hfd
      exact ⟨d, hd, fa, hfa, hmc, (Option.some.inj hfd).symm⟩
  · rw [if_neg hmc] at hfd
    cases hfd

/-- C2: on any non-empty tag list every returned confidence lies in `(0, 1]`,
the result list is sorted descending by confidence, ties keep the condition
iteration order (the equal-confidence subsequence of the output is an
initial segment of the equal-confidence subsequence of the candidate list,
which is in corpus order), and at most 3 results are returned. -/
theorem c2_matcher_contract (diseases : List Disease)
    (tags : List (Option String)) (h : tags ≠ []) :
    (∀ r ∈ retrieve_relevant_first_aid (.ok diseases) tags,
        0 < r.confidence ∧ r.confidence ≤ 1) ∧
    (retrieve_relevant_first_aid (.ok diseases) tags).Pairwise confGE ∧
    (∀ c : ℚ,
      (retrieve_relevant_first_aid (.ok diseases) tags).filter
          (fun r => decide (r.confidence = c)) <+:
        (candidateResults (get_diseases_with_text diseases)
            (normalizeTags tags)).filter (fun r => decide (r.confidence = c))) ∧
    (retrieve_relevant_first_aid (.ok diseases) tags).length ≤ 3 := by
  by_cases hn : (normalizeTags tags).isEmpty = true
  · have hout : retrieve_relevant_first_aid (.ok diseases) tags = [] := by
      simp [retrieve_relevant_first_aid, hn]
    rw [hout]
    refine ⟨by simp, by simp, fun c => ?_, by simp⟩
    simp only [List.filter_nil]
    exact List.nil_prefix
  · have h1 : tags.isEmpty = false := by
      cases tags
      · exact absurd rfl h
      · rfl
    have h2 : (normalizeTags tags).isEmpty = false := by
      cases hh : (normalizeTags tags).isEmpty
      · rfl
      · exact absurd hh hn
    have hlen : 0 < (normalizeTags tags).length := by
      cases hh : normalizeTags tags
      · rw [hh] at h2
        cases h2
      · simp
    have heq := retrieve_ok_eq diseases tags h1 h2
    rw [heq]
    unfold rankTop3
    refine ⟨?_, ?_, ?_, ?_⟩
    · intro r hr
      have hr2 : r ∈ candidateResults (get_diseases_with_text diseases)
          (normalizeTags tags) :=
        (List.mem_insertionSort confGE).mp (List.mem_of_mem_take hr)
      obtain ⟨d, hd, fa, hfa, hmc, rfl⟩ := mem_candidateResults hr2
      constructor
      · apply div_pos
        · exact_mod_cast hmc
        · exact_mod_cast hlen
      · rw [div_le_one (by exact_mod_cast hlen)]
        exact_mod_cast List.length_filter_le _ _
    · exact List.Pairwise.sublist (List.take_sublist 3 _)
        (List.sorted_insertionSort confGE _)
    · intro c
      have hpfx := List.take_prefix 3
        ((candidateResults (get_diseases_with_text diseases)
          (normalizeTags tags)).insertionSort confGE)
      have hstab := filter_insertionSort confGE
        (fun r => decide (r.confidence = c))
        (fun a b ha hb => by
          have ha' : a.confidence = c := of_decide_eq_true ha
          have hb' : b.confidence = c := of_decide_eq_true hb
          unfold confGE
          rw [ha', hb'])
        (candidateResults (get_diseases_with_text diseases) (normalizeTags tags))
      have := hpfx.filter (fun r => decide (r.confidence = c))
      rw [hstab] at this
      exact this
    · rw [List.length_take]
      exact min_le_left _ _

/-- Witness for C2 at a concrete corpus and tag list. -/
theorem c2_matcher_contract_witness :
    (∀ r ∈ retrieve_relevant_first_aid (.ok exDiseases) exTags,
        0 < r.confidence ∧ r.confidence ≤ 1) ∧
    (retrieve_relevant_first_aid (.ok exDiseases) exTags).Pairwise confGE ∧
    (∀ c : ℚ,
      (retrieve_relevant_first_aid (.ok exDiseases) exTags).filter
          (fun r => decide (r.confidence = c)) <+:
        (candidateResults (get_diseases_with_text exDiseases)
            (normalizeTags exTags)).filter (fun r => decide (r.confidence = c))) ∧
    (retrieve_relevant_first_aid (.ok exDiseases) exTags).length ≤ 3 :=
  c2_matcher_contract exDiseases exTags (by decide)

/-- C4: every result the matcher returns stems from a corpus condition that
has at least one first-aid procedure, and carries exactly that condition's
first procedure; a condition without a procedure can never contribute a
result, whatever its match count. -/
theorem c4_first_aid_attachment (diseases : List Disease)
    (tags : List (Option String)) (r : MatchResult)
    (hr : r ∈ retrieve_relevant_first_aid (.ok diseases) tags) :
    ∃ d ∈ diseases, r.disease = d.name ∧ d.first_aid_procedures ≠ [] ∧
      d.first_aid_procedures.head? = some r.first_aid := by
  have hmain : r ∈ rankTop3 (get_diseases_with_text diseases)
      (normalizeTags tags) := by
    by_cases ht : tags.isEmpty = true
    · simp [retrieve_relevant_first_aid, ht] at hr
    · by_cases hn : (normalizeTags tags).isEmpty = true
      · simp [retrieve_relevant_first_aid, ht, hn] at hr
      · have h1f : tags.isEmpty = false := by
          cases hh : tags.isEmpty
          · rfl
          · exact absurd hh ht
        have h2f : (normalizeTags tags).isEmpty = false := by
          cases hh : (normalizeTags tags).isEmpty
          · rfl
          · exact absurd hh hn
        rw [retrieve_ok_eq diseases tags h1f h2f] at hr
        exact hr
  have hr2 : r ∈ candidateResults (get_diseases_with_text diseases)
      (normalizeTags tags) := by
    unfold rankTop3 at hmain
    exact (List.mem_insertionSort confGE).mp (List.mem_of_mem_take hmain)
  obtain ⟨dd, hdd, fa, hfa, hmc, rfl⟩ := mem_candidateResults hr2
  rw [get_diseases_with_text] at hdd
  obtain ⟨d, hd, rfl⟩ := List.mem_map.mp hdd
  refine ⟨d, hd, rfl, ?_, ?_⟩
  · intro hnil
    rw [hnil] at hfa
    cases hfa
  · exact hfa

/-- Concrete evaluation of the matcher on `exDiseases`/`exTags`. -/
theorem retrieve_ex_eval :
    retrieve_relevant_first_aid (.ok exDiseases) exTags = [exResult] := by
  have h : retrieve_relevant_first_aid (.ok exDiseases) exTags =
      [⟨"Malaria", ((2 : Nat) : ℚ) / ((2 : Nat) : ℚ),
        ⟨"Rest and take fluids", "", "See a doctor within 24 hours"⟩⟩] := rfl
  rw [h]
  norm_num [exResult]

/-- Witness for C4: the concrete matcher output element of
`exDiseases`/`exTags` carries Malaria's first procedure. -/
theorem c4_first_aid_attachment_witness :
    ∃ d ∈ exDiseases, exResult.disease = d.name ∧
      d.first_aid_procedures ≠ [] ∧
      d.first_aid_procedures.head? = some exResult.first_aid :=
  c4_first_aid_attachment exDiseases exTags exResult
    (by rw [retrieve_ex_eval]; exact List.mem_singleton.mpr rfl)

/-- The dedup loop maps permuted inputs to permuted outputs. -/
theorem dedupFirst_perm {l1 l2 : List String} (h : l1.Perm l2) :
    (dedupFirst l1).Perm (dedupFirst l2) := by
  unfold dedupFirst
  rw [List.perm_ext_iff_of_nodup (nodup_dedupAcc _ _) (nodup_dedupAcc _ _)]
  intro a
  rw [mem_dedupAcc, mem_dedupAcc]
  simp [h.mem_iff]

/-- The matcher's output depends on the input tags only through the
normalised tag set: inputs with permuted normalised sets are
indistinguishable. -/
theorem retrieve_norm_congr (store : Except Unit (List Disease))
    (t1 t2 : List (Option String))
    (h : (normalizeTags t1).Perm (normalizeTags t2)) :
    retrieve_relevant_first_aid store t1 =
      retrieve_relevant_first_aid store t2 := by
  by_cases h1 : (normalizeTags t1).isEmpty = true
  · have hn1 : normalizeTags t1 = [] := List.isEmpty_iff.mp h1
    have hn2 : normalizeTags t2 = [] := (hn1 ▸ h).symm.eq_nil
    have e1 : retrieve_relevant_first_aid store t1 = [] := by
      cases store <;> simp [retrieve_relevant_first_aid, hn1]
    have e2 : retrieve_relevant_first_aid store t2 = [] := by
      cases store <;> simp [retrieve_relevant_first_aid, hn2]
    rw [e1, e2]
  · have h2 : ¬((normalizeTags t2).isEmpty = true) := by
      intro hh
      have hn2 : normalizeTags t2 = [] := List.isEmpty_iff.mp hh
      exact h1 (List.isEmpty_iff.mpr (h.trans (hn2 ▸ List.Perm.refl _)).eq_nil)
    have h1f : (normalizeTags t1).isEmpty = false := by
      cases hh : (normalizeTags t1).isEmpty
      · rfl
      · exact absurd hh h1
    have h2f : (normalizeTags t2).isEmpty = false := by
      cases hh : (normalizeTags t2).isEmpty
      · rfl
      · exact absurd hh h2
    have ht1 : t1.isEmpty = false := by
      cases t1 with
      | nil => simp [normalizeTags, dedupFirst, dedupAcc] at h1f
      | cons x xs => rfl
    have ht2 : t2.isEmpty = false := by
      cases t2 with
      | nil => simp [normalizeTags, dedupFirst, dedupAcc] at h2f
      | cons x xs => rfl
    cases store with
    | error e => simp [retrieve_relevant_first_aid, ht1, ht2, h1f, h2f]
    | ok diseases =>
      rw [retrieve_ok_eq diseases t1 ht1 h1f,
        retrieve_ok_eq diseases t2 ht2 h2f]
      unfold rankTop3
      have hcand : candidateResults (get_diseases_with_text diseases)
          (normalizeTags t1) =
        candidateResults (get_diseases_with_text diseases)
          (normalizeTags t2) := by
        unfold candidateResults
        apply List.filterMap_congr
        intro d _
        rw [(h.filter (fun s => strContains d.search_text s)).length_eq,
          h.length_eq]
      rw [hcand]

/-- C10: the matcher's output is invariant under permutation of the input
tags, under any change preserving the normalised (lowercased, stripped,
deduplicated) tag set — which covers duplication and case or surrounding
whitespace variation — and a tag list consisting only of empty strings or
`None` entries yields `[]`. -/
theorem c10_matcher_invariance :
    (∀ (store : Except Unit (List Disease)) (t1 t2 : List (Option String)),
        t1.Perm t2 →
        retrieve_relevant_first_aid store t1 =
          retrieve_relevant_first_aid store t2) ∧
    (∀ (store : Except Unit (List Disease)) (t1 t2 : List (Option String)),
        (normalizeTags t1).Perm (normalizeTags t2) →
        retrieve_relevant_first_aid store t1 =
          retrieve_relevant_first_aid store t2) ∧
    (∀ (store : Except Unit (List Disease)) (l : List (Option String)),
        (∀ s ∈ l, s = some "" ∨ s = none) →
        retrieve_relevant_first_aid store l = []) := by
  refine ⟨?_, retrieve_norm_congr, ?_⟩
  · intro store t1 t2 hp
    exact retrieve_norm_congr store t1 t2 (dedupFirst_perm (hp.filterMap normTag))
  · intro store l hl
    have hnil : normalizeTags l = [] := by
      unfold normalizeTags
      have : l.filterMap normTag = [] := by
        rw [List.filterMap_eq_nil_iff]
        intro s hs
        rcases hl s hs with rfl | rfl <;> rfl
      rw [this]
      rfl
    cases store <;> simp [retrieve_relevant_first_aid, hnil]

/-- Witness for C10: permuting concrete tags leaves the output unchanged,
and an all-empty tag list yields no matches. -/
theorem c10_matcher_invariance_witness :
    retrieve_relevant_first_aid (.ok exDiseases)
        [some "fever", some "headache"] =
      retrieve_relevant_first_aid (.ok exDiseases)
        [some "headache", some "fever"] ∧
    retrieve_relevant_first_aid (.ok exDiseases) [some "", none] = [] :=
  ⟨c10_matcher_invariance.1 (.ok exDiseases) _ _ (by decide),
   c10_matcher_invariance.2.2 (.ok exDiseases) _ (by decide)⟩

/-- C9: with unchanged reference data, a second identical call returns the
same output as the first — for the extractor, whose lexicon cache is filled
(or left empty on fetch failure) by the first call, and for the matcher,
whose result cache stores exactly the list the first call returned. -/
theorem c9_idempotent_calls :
    (∀ (db : Except Unit (List Symptom)) (c : Option (List Symptom))
        (text : String),
        (extractCached db c text).1 =
          (extractCached db (extractCached db c text).2 text).1) ∧
    (∀ (store : Except Unit (List Disease)) (c : RagCache)
        (tags : List (Option String)),
        (retrieveCached store c tags).1 =
          (retrieveCached store (retrieveCached store c tags).2 tags).1) := by
  constructor
  · intro db c text
    cases c with
    | some syms => rfl
    | none =>
      cases db with
      | ok syms => rfl
      | error e => rfl
  · intro store c tags
    by_cases ht : tags.isEmpty = true
    · simp [retrieveCached, ht]
    · by_cases hn : (normalizeTags tags).isEmpty = true
      · simp [retrieveCached, ht, hn]
      · cases hfind : c.results.find?
          (fun kv => kv.1 == sortStrings (normalizeTags tags)) with
        | some kv => simp [retrieveCached, ht, hn, hfind]
        | none =>
          cases hc : c.diseases with
          | some ds => simp [retrieveCached, ht, hn, hfind, hc]
          | none =>
            cases store with
            | error e => simp [retrieveCached, ht, hn, hfind, hc, Except.map]
            | ok diseases => simp [retrieveCached, ht, hn, hfind, hc, Except.map]
